import Mathlib

/-
Shallow embedding of `src/contracts/Governance.sol` ("defi-bank-simulator"),
the proposal registry and voting ledger, together with proofs of the spec's
claims about it.

Modelling conventions:
  - addresses (`msg.sender`, voters) are `Nat`;
  - `block.timestamp` is an explicit `now : Nat` argument (seconds);
  - the `mapping(uint256 => Proposal)` plus `proposalCount`, which the
    contract keeps dense (ids `[0, proposalCount)`), is a `List Proposal`
    indexed by id, with `proposalCount` its length;
  - the per-proposal `mapping(address => bool) hasVoted` is the list of
    addresses for which the flag was set to true;
  - a reverting `require` is an `Except` error; the `...Txn` wrappers give
    the EVM transaction view, in which a revert leaves the state unchanged.
-/

/-- Seconds in `14 days`, the Solidity constant `VOTING_PERIOD`. -/
def VOTING_PERIOD : Nat := 14 * 24 * 60 * 60

/-- The Solidity constant `MIN_VOTES_TO_PASS` (quorum threshold). -/
def MIN_VOTES_TO_PASS : Nat := 1000

/-- Error taxonomy of the spec: one kind per distinct `require` message. -/
inductive GovError where
  | ValidationError
  | NotFoundError
  | VotingClosedError
  | DuplicateVoteError
deriving DecidableEq

/-- The `Proposal` struct of `Governance.sol`. -/
structure Proposal where
  id : Nat
  title : String
  description : String
  proposer : Nat
  endDate : Nat
  votesFor : Nat
  votesAgainst : Nat
  totalVoters : Nat
  isExecuted : Bool
  hasVoted : List Nat
deriving DecidableEq

/-- The contract state: the dense proposal store. -/
@[ext]
structure Governance where
  proposals : List Proposal
deriving DecidableEq

/-- The `proposalCount` state variable (the store is kept dense). -/
def Governance.proposalCount (g : Governance) : Nat := g.proposals.length

/-- The constructor: `proposalCount = 0`, no proposals. -/
def Governance.emptyGov : Governance := ⟨[]⟩

/-- The `createProposal` function: validates the strings, allocates the next
sequential id and stores a fresh proposal with zeroed counters,
`endDate = now + VOTING_PERIOD`, `isExecuted = false`, empty voter set. -/
def createProposal (g : Governance) (title description : String)
    (sender now : Nat) : Except GovError (Governance × Nat) :=
  if title.isEmpty then .error .ValidationError
  else if description.isEmpty then .error .ValidationError
  else
    let proposalId := g.proposalCount
    let p : Proposal :=
      { id := proposalId, title := title, description := description,
        proposer := sender, endDate := now + VOTING_PERIOD,
        votesFor := 0, votesAgainst := 0, totalVoters := 0,
        isExecuted := false, hasVoted := [] }
    .ok (⟨g.proposals ++ [p]⟩, proposalId)

/-- The record update a successful `vote` performs on the proposal:
marks the voter, bumps `totalVoters` and the supported tally. -/
def voteUpdate (p : Proposal) (support : Bool) (voter : Nat) : Proposal :=
  { p with
    hasVoted := voter :: p.hasVoted,
    totalVoters := p.totalVoters + 1,
    votesFor := if support then p.votesFor + 1 else p.votesFor,
    votesAgainst := if support then p.votesAgainst else p.votesAgainst + 1 }

/-- The `vote` function with its modifiers, in source order:
`validProposal` (id in range), `votingPeriod` (`now <= endDate`), then the
duplicate-vote `require`, then the state update. -/
def vote (g : Governance) (proposalId : Nat) (support : Bool)
    (voter now : Nat) : Except GovError Governance :=
  match g.proposals[proposalId]? with
  | none => .error .NotFoundError
  | some proposal =>
    if now ≤ proposal.endDate then
      if voter ∈ proposal.hasVoted then
        .error .DuplicateVoteError
      else
        .ok ⟨g.proposals.set proposalId (voteUpdate proposal support voter)⟩
    else .error .VotingClosedError

/-- The `voteFor` wrapper: delegates to `vote` with `support = true`. -/
def voteFor (g : Governance) (proposalId voter now : Nat) :
    Except GovError Governance :=
  vote g proposalId true voter now

/-- The `voteAgainst` wrapper: delegates to `vote` with `support = false`. -/
def voteAgainst (g : Governance) (proposalId voter now : Nat) :
    Except GovError Governance :=
  vote g proposalId false voter now

/-- The `getProposal` view: the full record behind `validProposal`. -/
def getProposal (g : Governance) (proposalId : Nat) :
    Except GovError Proposal :=
  match g.proposals[proposalId]? with
  | none => .error .NotFoundError
  | some p => .ok p

/-- The `getProposalStatus` view, branch for branch from the source:
executed proposals report by simple majority; past the deadline the quorum
`votesFor >= MIN_VOTES_TO_PASS` is also required; otherwise "Active". -/
def getProposalStatus (g : Governance) (proposalId now : Nat) :
    Except GovError String :=
  match g.proposals[proposalId]? with
  | none => .error .NotFoundError
  | some p =>
    if p.isExecuted then
      if p.votesFor > p.votesAgainst then .ok "Passed" else .ok "Failed"
    else if now > p.endDate then
      if p.votesFor > p.votesAgainst ∧ p.votesFor ≥ MIN_VOTES_TO_PASS then
        .ok "Passed"
      else .ok "Failed"
    else .ok "Active"

/-- The `hasVoted` view: whether `voter` is recorded on the proposal. -/
def hasVotedOn (g : Governance) (proposalId voter : Nat) :
    Except GovError Bool :=
  match g.proposals[proposalId]? with
  | none => .error .NotFoundError
  | some p => .ok (decide (voter ∈ p.hasVoted))

/-- The `getTotalProposals` view. -/
def getTotalProposals (g : Governance) : Nat := g.proposalCount

/-- Transaction view of `createProposal`: a revert keeps the old state. -/
def createProposalTxn (g : Governance) (title description : String)
    (sender now : Nat) : Governance × Except GovError Nat :=
  match createProposal g title description sender now with
  | .ok (g', pid) => (g', .ok pid)
  | .error e => (g, .error e)

/-- Transaction view of `vote`: a revert keeps the old state. -/
def voteTxn (g : Governance) (proposalId : Nat) (support : Bool)
    (voter now : Nat) : Governance × Option GovError :=
  match vote g proposalId support voter now with
  | .ok g' => (g', none)
  | .error e => (g, some e)

/-- States reachable through the exposed state-changing entry points:
the freshly constructed contract, successful `createProposal` calls, and
successful `vote` / `voteFor` / `voteAgainst` calls. -/
inductive Reachable : Governance → Prop where
  | base : Reachable Governance.emptyGov
  | create {g g' : Governance} {t d : String} {sender now pid : Nat} :
      Reachable g → createProposal g t d sender now = .ok (g', pid) →
      Reachable g'
  | voteStep {g g' : Governance} {pid : Nat} {support : Bool}
      {voter now : Nat} :
      Reachable g → vote g pid support voter now = .ok g' → Reachable g'
  | voteForStep {g g' : Governance} {pid voter now : Nat} :
      Reachable g → voteFor g pid voter now = .ok g' → Reachable g'
  | voteAgainstStep {g g' : Governance} {pid voter now : Nat} :
      Reachable g → voteAgainst g pid voter now = .ok g' → Reachable g'

-- ============ INVERSION LEMMAS ============

/-- A successful `createProposal` appends exactly the fresh proposal and
returns the old count as id. -/
lemma createProposal_ok_iff {g g' : Governance} {t d : String}
    {sender now pid : Nat} :
    createProposal g t d sender now = .ok (g', pid) ↔
      t.isEmpty = false ∧ d.isEmpty = false ∧
      g'.proposals = g.proposals ++
        [{ id := g.proposalCount, title := t, description := d,
           proposer := sender, endDate := now + VOTING_PERIOD,
           votesFor := 0, votesAgainst := 0, totalVoters := 0,
           isExecuted := false, hasVoted := [] }] ∧
      pid = g.proposalCount := by
  unfold createProposal
  rcases ht : t.isEmpty <;> rcases hd : d.isEmpty <;>
    simp [Governance.ext_iff, and_assoc, eq_comm]

/-- A successful `vote` updates exactly the addressed proposal via
`voteUpdate`, and its preconditions held. -/
lemma vote_ok_iff {g g' : Governance} {pid : Nat} {support : Bool}
    {voter now : Nat} :
    vote g pid support voter now = .ok g' ↔
      ∃ p, g.proposals[pid]? = some p ∧ now ≤ p.endDate ∧
        voter ∉ p.hasVoted ∧
        g'.proposals = g.proposals.set pid (voteUpdate p support voter) := by
  unfold vote
  rcases hp : g.proposals[pid]? with _ | p
  · simp
  · by_cases hnow : now ≤ p.endDate
    · by_cases hv : voter ∈ p.hasVoted <;>
        simp [hnow, hv, Governance.ext_iff, eq_comm]
    · simp [hnow]

-- ============ REACHABLE-STATE INVARIANTS ============

/-- Tally invariant after a successful vote, given it held before. -/
lemma voteUpdate_tally {p : Proposal} {support : Bool} {voter : Nat}
    (h : p.votesFor + p.votesAgainst = p.totalVoters) :
    (voteUpdate p support voter).votesFor +
      (voteUpdate p support voter).votesAgainst =
      (voteUpdate p support voter).totalVoters := by
  rcases support <;> simp [voteUpdate] <;> omega

/-- Every proposal of a reachable state satisfies the tally invariant. -/
lemma reachable_tally {g : Governance} (hr : Reachable g) :
    ∀ p ∈ g.proposals, p.votesFor + p.votesAgainst = p.totalVoters := by
  induction hr with
  | base => simp [Governance.emptyGov]
  | create _ hc ih =>
    rcases createProposal_ok_iff.mp hc with ⟨-, -, hps, -⟩
    intro p hp
    rw [hps] at hp
    rcases List.mem_append.mp hp with hp | hp
    · exact ih p hp
    · simp only [List.mem_singleton] at hp
      subst hp; rfl
  | voteStep _ hv ih =>
    rcases vote_ok_iff.mp hv with ⟨q, hq, -, -, hps⟩
    intro p hp
    rw [hps] at hp
    rcases List.mem_or_eq_of_mem_set hp with hp | hp
    · exact ih p hp
    · subst hp
      exact voteUpdate_tally (ih q (List.getElem?_mem hq))
  | voteForStep _ hv ih =>
    rcases vote_ok_iff.mp hv with ⟨q, hq, -, -, hps⟩
    intro p hp
    rw [hps] at hp
    rcases List.mem_or_eq_of_mem_set hp with hp | hp
    · exact ih p hp
    · subst hp
      exact voteUpdate_tally (ih q (List.getElem?_mem hq))
  | voteAgainstStep _ hv ih =>
    rcases vote_ok_iff.mp hv with ⟨q, hq, -, -, hps⟩
    intro p hp
    rw [hps] at hp
    rcases List.mem_or_eq_of_mem_set hp with hp | hp
    · exact ih p hp
    · subst hp
      exact voteUpdate_tally (ih q (List.getElem?_mem hq))

/-- No exposed operation sets `isExecuted`; it is false in every proposal of
every reachable state. -/
lemma reachable_notExecuted {g : Governance} (hr : Reachable g) :
    ∀ p ∈ g.proposals, p.isExecuted = false := by
  induction hr with
  | base => simp [Governance.emptyGov]
  | create _ hc ih =>
    rcases createProposal_ok_iff.mp hc with ⟨-, -, hps, -⟩
    intro p hp
    rw [hps] at hp
    rcases List.mem_append.mp hp with hp | hp
    · exact ih p hp
    · simp only [List.mem_singleton] at hp
      subst hp; rfl
  | voteStep _ hv ih =>
    rcases vote_ok_iff.mp hv with ⟨q, hq, -, -, hps⟩
    intro p hp
    rw [hps] at hp
    rcases List.mem_or_eq_of_mem_set hp with hp | hp
    · exact ih p hp
    · subst hp
      exact ih q (List.getElem?_mem hq)
  | voteForStep _ hv ih =>
    rcases vote_ok_iff.mp hv with ⟨q, hq, -, -, hps⟩
    intro p hp
    rw [hps] at hp
    rcases List.mem_or_eq_of_mem_set hp with hp | hp
    · exact ih p hp
    · subst hp
      exact ih q (List.getElem?_mem hq)
  | voteAgainstStep _ hv ih =>
    rcases vote_ok_iff.mp hv with ⟨q, hq, -, -, hps⟩
    intro p hp
    rw [hps] at hp
    rcases List.mem_or_eq_of_mem_set hp with hp | hp
    · exact ih p hp
    · subst hp
      exact ih q (List.getElem?_mem hq)

-- ============ CONCRETE STATES FOR WITNESSES ============

/-- Concrete proposal: created at time 0, no votes yet. -/
def pA : Proposal :=
  { id := 0, title := "Lower fees", description := "Reduce fees to 0.1%",
    proposer := 5, endDate := VOTING_PERIOD, votesFor := 0, votesAgainst := 0,
    totalVoters := 0, isExecuted := false, hasVoted := [] }

/-- Registry holding just `pA`. -/
def gA : Governance := ⟨[pA]⟩

/-- Concrete proposal: `pA` after voter 7 voted for it. -/
def pB : Proposal :=
  { id := 0, title := "Lower fees", description := "Reduce fees to 0.1%",
    proposer := 5, endDate := VOTING_PERIOD, votesFor := 1, votesAgainst := 0,
    totalVoters := 1, isExecuted := false, hasVoted := [7] }

/-- Registry holding just `pB`. -/
def gB : Governance := ⟨[pB]⟩

lemma reachable_gA : Reachable gA := by
  have h : createProposal Governance.emptyGov "Lower fees"
      "Reduce fees to 0.1%" 5 0 = .ok (gA, 0) := by rfl
  exact Reachable.create Reachable.base h

lemma reachable_gB : Reachable gB := by
  have h : vote gA 0 true 7 0 = .ok gB := by rfl
  exact Reachable.voteStep reachable_gA h

/-- Parametric plain proposal used for the dense-ids scenario. -/
def pW (i : Nat) : Proposal :=
  { id := i, title := "T", description := "D", proposer := 1,
    endDate := VOTING_PERIOD, votesFor := 0, votesAgainst := 0,
    totalVoters := 0, isExecuted := false, hasVoted := [] }

/-- Registry holding exactly the proposal ids 0, 1, 2. -/
def gC : Governance := ⟨[pW 0, pW 1, pW 2]⟩

/-- Concrete proposal past its deadline with 999 votes for and 1 against. -/
def pQ : Proposal :=
  { id := 0, title := "T", description := "D", proposer := 1,
    endDate := VOTING_PERIOD, votesFor := 999, votesAgainst := 1,
    totalVoters := 1000, isExecuted := false, hasVoted := [] }

/-- Registry holding just `pQ`. -/
def gQ : Governance := ⟨[pQ]⟩

deriving instance DecidableEq for Except

-- ============ CLAIM THEOREMS ============

/-- C1: in every reachable registry state (every sequence of createProposal
and vote operations from the fresh contract), every stored proposal
satisfies `votesFor + votesAgainst = totalVoters`. -/
theorem tally_invariant (g : Governance) (hr : Reachable g) :
    ∀ p ∈ g.proposals, p.votesFor + p.votesAgainst = p.totalVoters :=
  reachable_tally hr

/-- Witness for C1: the invariant at the concrete reachable state `gB`. -/
theorem tally_invariant_witness :
    pB ∈ gB.proposals ∧ pB.votesFor + pB.votesAgainst = pB.totalVoters :=
  ⟨by decide, tally_invariant gB reachable_gB pB (by decide)⟩

/-- C2: for an existing proposal, `getProposalStatus` reports by simple
majority when `isExecuted`; past the deadline by majority plus the quorum
`votesFor ≥ MIN_VOTES_TO_PASS`; otherwise "Active". -/
theorem getProposalStatus_cases (g : Governance) (pid now : Nat)
    (p : Proposal) (h : g.proposals[pid]? = some p) :
    (p.isExecuted = true →
      getProposalStatus g pid now =
        .ok (if p.votesFor > p.votesAgainst then "Passed" else "Failed")) ∧
    (p.isExecuted = false → now > p.endDate →
      getProposalStatus g pid now =
        .ok (if p.votesFor > p.votesAgainst ∧ p.votesFor ≥ MIN_VOTES_TO_PASS
             then "Passed" else "Failed")) ∧
    (p.isExecuted = false → now ≤ p.endDate →
      getProposalStatus g pid now = .ok "Active") := by
  unfold getProposalStatus
  rw [h]
  refine ⟨fun he => ?_, fun he hn => ?_, fun he hn => ?_⟩
  · simp [he]
    split <;> rfl
  · simp [he, hn]
    split <;> rfl
  · simp [he, Nat.not_lt.mpr hn]

/-- Witness for C2: a proposal past its deadline with 999 votes for and 1
against is "Failed" despite the majority (quorum not met). -/
theorem getProposalStatus_cases_witness :
    getProposalStatus gQ 0 1296000 = .ok "Failed" := by
  have h := (getProposalStatus_cases gQ 0 1296000 pQ (by rfl)).2.1
    (by decide) (by decide)
  rw [h]
  decide

/-- C3 counterexample: voter 7 is already recorded on proposal 0 of `gB`,
yet a second vote after the deadline fails with `VotingClosedError`, not
`DuplicateVoteError`. -/
theorem second_vote_not_always_duplicate_error :
    7 ∈ pB.hasVoted ∧
    vote gB 0 true 7 (pB.endDate + 1) ≠ .error .DuplicateVoteError ∧
    vote gB 0 true 7 (pB.endDate + 1) = .error .VotingClosedError := by
  refine ⟨by decide, ?_, by rfl⟩
  intro hcontra
  have : (Except.error GovError.VotingClosedError :
      Except GovError Governance) = .error .DuplicateVoteError := by
    rw [← hcontra]; rfl
  simp at this

/-- C3 (amended): a second vote by an identity already in the proposal's
voter set, with the voting window still open (`now ≤ endDate`), fails with
`DuplicateVoteError` and leaves the registry state unchanged. -/
theorem duplicate_vote_rejected (g : Governance) (pid : Nat)
    (support : Bool) (voter now : Nat) (p : Proposal)
    (h : g.proposals[pid]? = some p) (hmem : voter ∈ p.hasVoted)
    (hnow : now ≤ p.endDate) :
    voteTxn g pid support voter now = (g, some .DuplicateVoteError) := by
  unfold voteTxn vote
  rw [h]
  simp [hnow, hmem]

/-- Witness for C3 (amended): voter 7 votes twice on `gA`'s proposal 0. -/
theorem duplicate_vote_rejected_witness :
    voteTxn gB 0 true 7 0 = (gB, some .DuplicateVoteError) :=
  duplicate_vote_rejected gB 0 true 7 0 pB (by rfl) (by decide) (by decide)

/-- C4: voting on an existing proposal strictly after its `endDate` fails
with `VotingClosedError` and leaves the registry state unchanged. -/
theorem vote_after_deadline_closed (g : Governance) (pid : Nat)
    (support : Bool) (voter now : Nat) (p : Proposal)
    (h : g.proposals[pid]? = some p) (hnow : p.endDate < now) :
    voteTxn g pid support voter now = (g, some .VotingClosedError) := by
  unfold voteTxn vote
  rw [h]
  simp [Nat.not_le.mpr hnow]

/-- Witness for C4: a vote one second past the deadline on `gA`. -/
theorem vote_after_deadline_closed_witness :
    voteTxn gA 0 true 7 (VOTING_PERIOD + 1) =
      (gA, some .VotingClosedError) :=
  vote_after_deadline_closed gA 0 true 7 (VOTING_PERIOD + 1) pA
    (by rfl) (by decide)

/-- C5: `createProposal` with an empty title or description fails with
`ValidationError`, creates no proposal, and leaves the registry (hence
`getTotalProposals`) exactly as before. -/
theorem createProposal_empty_rejected (g : Governance) (t d : String)
    (sender now : Nat) (h : t.isEmpty = true ∨ d.isEmpty = true) :
    createProposalTxn g t d sender now = (g, .error .ValidationError) ∧
    getTotalProposals (createProposalTxn g t d sender now).1 =
      getTotalProposals g := by
  have hmain : createProposalTxn g t d sender now =
      (g, .error .ValidationError) := by
    unfold createProposalTxn createProposal
    rcases h with h | h
    · simp [h]
    · rcases ht : t.isEmpty <;> simp [ht, h]
  exact ⟨hmain, by rw [hmain]⟩

/-- Witness for C5: empty title on the fresh registry. -/
theorem createProposal_empty_rejected_witness :
    createProposalTxn Governance.emptyGov "" "x" 1 0 =
      (Governance.emptyGov, .error .ValidationError) ∧
    getTotalProposals (createProposalTxn Governance.emptyGov "" "x" 1 0).1 =
      getTotalProposals Governance.emptyGov :=
  createProposal_empty_rejected Governance.emptyGov "" "x" 1 0
    (Or.inl (by decide))

/-- C6: with non-empty title and description, `createProposal` returns the
current count as the new id, increments the count, stores a zeroed proposal
with `endDate = now + VOTING_PERIOD`, not executed, empty voter set, and
`getProposalStatus` on it at time `now` is "Active". -/
theorem createProposal_success (g : Governance) (t d : String)
    (sender now : Nat) (ht : t.isEmpty = false) (hd : d.isEmpty = false) :
    ∃ g', createProposal g t d sender now = .ok (g', g.proposalCount) ∧
      g'.proposalCount = g.proposalCount + 1 ∧
      g'.proposals[g.proposalCount]? = some
        { id := g.proposalCount, title := t, description := d,
          proposer := sender, endDate := now + VOTING_PERIOD,
          votesFor := 0, votesAgainst := 0, totalVoters := 0,
          isExecuted := false, hasVoted := [] } ∧
      getProposalStatus g' g.proposalCount now = .ok "Active" := by
  refine ⟨⟨g.proposals ++
    [{ id := g.proposalCount, title := t, description := d,
       proposer := sender, endDate := now + VOTING_PERIOD,
       votesFor := 0, votesAgainst := 0, totalVoters := 0,
       isExecuted := false, hasVoted := [] }]⟩, ?_, ?_, ?_, ?_⟩
  · unfold createProposal
    simp [ht, hd]
  · simp [Governance.proposalCount]
  · exact List.getElem?_concat_length _ _
  · unfold getProposalStatus
    rw [show (Governance.mk (g.proposals ++
      [{ id := g.proposalCount, title := t, description := d,
         proposer := sender, endDate := now + VOTING_PERIOD,
         votesFor := 0, votesAgainst := 0, totalVoters := 0,
         isExecuted := false, hasVoted := [] }])).proposals[g.proposalCount]?
      = some _ from List.getElem?_concat_length _ _]
    simp [Nat.not_lt.mpr (Nat.le_add_right now VOTING_PERIOD)]

/-- Witness for C6: the first proposal of a fresh registry gets id 0 and is
immediately "Active". -/
theorem createProposal_success_witness :
    ∃ g', createProposal Governance.emptyGov "Lower fees"
        "Reduce fees to 0.1%" 5 0 = .ok (g', 0) ∧
      g'.proposalCount = 0 + 1 ∧
      g'.proposals[0]? = some
        { id := 0, title := "Lower fees", description := "Reduce fees to 0.1%",
          proposer := 5, endDate := 0 + VOTING_PERIOD,
          votesFor := 0, votesAgainst := 0, totalVoters := 0,
          isExecuted := false, hasVoted := [] } ∧
      getProposalStatus g' 0 0 = .ok "Active" :=
  createProposal_success Governance.emptyGov "Lower fees"
    "Reduce fees to 0.1%" 5 0 (by decide) (by decide)

/-- C7: the valid ids are exactly `[0, proposalCount)`: every id-taking
operation fails with `NotFoundError` at and beyond the count, and below the
count finds a proposal (never `NotFoundError`). -/
theorem valid_ids_dense (g : Governance) (pid : Nat) :
    (g.proposalCount ≤ pid →
      getProposal g pid = .error .NotFoundError ∧
      (∀ now, getProposalStatus g pid now = .error .NotFoundError) ∧
      (∀ voter, hasVotedOn g pid voter = .error .NotFoundError) ∧
      (∀ support voter now,
        vote g pid support voter now = .error .NotFoundError)) ∧
    (pid < g.proposalCount →
      (∃ p, getProposal g pid = .ok p) ∧
      (∀ now, getProposalStatus g pid now ≠ .error .NotFoundError) ∧
      (∀ voter, hasVotedOn g pid voter ≠ .error .NotFoundError) ∧
      (∀ support voter now,
        vote g pid support voter now ≠ .error .NotFoundError)) := by
  constructor
  · intro hge
    have hnone : g.proposals[pid]? = none := List.getElem?_eq_none hge
    exact ⟨by simp [getProposal, hnone],
      fun now => by simp [getProposalStatus, hnone],
      fun voter => by simp [hasVotedOn, hnone],
      fun support voter now => by simp [vote, hnone]⟩
  · intro hlt
    obtain ⟨p, hp⟩ : ∃ p, g.proposals[pid]? = some p :=
      ⟨g.proposals[pid], List.getElem?_eq_some.mpr ⟨hlt, rfl⟩⟩
    refine ⟨⟨p, by simp [getProposal, hp]⟩,
      fun now => ?_, fun voter => by simp [hasVotedOn, hp],
      fun support voter now => ?_⟩
    · unfold getProposalStatus
      rw [hp]
      split
      · simp_all
      · repeat' split
        all_goals simp
    · unfold vote
      rw [hp]
      split
      · simp_all
      · repeat' split
        all_goals simp

/-- Witness for C7: `getProposal 5` on the registry holding only ids 0-2
fails with `NotFoundError`, while id 2 is found. -/
theorem valid_ids_dense_witness :
    getProposal gC 5 = .error .NotFoundError ∧
    (∃ p, getProposal gC 2 = .ok p) :=
  ⟨((valid_ids_dense gC 5).1 (by decide)).1,
   ((valid_ids_dense gC 2).2 (by decide)).1⟩

/-- C8: in every reachable registry state, `isExecuted` is false for every
stored proposal: none of the exposed operations ever sets it. -/
theorem isExecuted_never_true (g : Governance) (hr : Reachable g) :
    ∀ p ∈ g.proposals, p.isExecuted = false :=
  reachable_notExecuted hr

/-- Witness for C8: the concrete reachable state `gB`. -/
theorem isExecuted_never_true_witness :
    pB ∈ gB.proposals ∧ pB.isExecuted = false :=
  ⟨by decide, isExecuted_never_true gB reachable_gB pB (by decide)⟩

/-- C9: `voteFor` is exactly `vote` with `support = true`, and `voteAgainst`
exactly `vote` with `support = false`, for every state and arguments. -/
theorem wrappers_delegate (g : Governance) (pid voter now : Nat) :
    voteFor g pid voter now = vote g pid true voter now ∧
    voteAgainst g pid voter now = vote g pid false voter now :=
  ⟨rfl, rfl⟩

/-- C10: at the exact deadline instant (`now = endDate`), voting on an
existing proposal of a reachable state still succeeds (for a fresh voter),
and `getProposalStatus` at that instant is still "Active". -/
theorem deadline_inclusive (g : Governance) (pid voter : Nat)
    (support : Bool) (p : Proposal) (hr : Reachable g)
    (h : g.proposals[pid]? = some p) (hv : voter ∉ p.hasVoted) :
    vote g pid support voter p.endDate =
      .ok ⟨g.proposals.set pid (voteUpdate p support voter)⟩ ∧
    getProposalStatus g pid p.endDate = .ok "Active" := by
  have hexec : p.isExecuted = false :=
    reachable_notExecuted hr p (List.getElem?_mem h)
  constructor
  · unfold vote
    rw [h]
    simp [hv]
  · unfold getProposalStatus
    rw [h]
    simp [hexec]

/-- Witness for C10: voter 7 at the exact deadline of `gA`'s proposal 0. -/
theorem deadline_inclusive_witness :
    vote gA 0 true 7 pA.endDate =
      .ok ⟨gA.proposals.set 0 (voteUpdate pA true 7)⟩ ∧
    getProposalStatus gA 0 pA.endDate = .ok "Active" :=
  deadline_inclusive gA 0 7 true pA reachable_gA (by rfl) (by decide)
